import Mathlib

/-- Characters treated as whitespace by the Python str.strip and str.split methods. -/
def pyIsSpace (c : Char) : Bool :=
  c = ' ' || c = '\t' || c = '\n' || c = '\r' || c = '\x0b' || c = '\x0c'

/-- Python str.strip with no arguments: drop whitespace from both ends. -/
def pyStrip (s : String) : String :=
  ⟨((s.data.dropWhile pyIsSpace).reverse.dropWhile pyIsSpace).reverse⟩

/-- ASCII uppercase of one character (Python str.upper restricted to ASCII input). -/
def upperChar (c : Char) : Char :=
  if 'a' ≤ c && c ≤ 'z' then Char.ofNat (c.toNat - 32) else c

/-- ASCII lowercase of one character. -/
def lowerChar (c : Char) : Char :=
  if 'A' ≤ c && c ≤ 'Z' then Char.ofNat (c.toNat + 32) else c

/-- Python str.upper (ASCII fragment, enough for the state tables). -/
def pyUpper (s : String) : String := ⟨s.data.map upperChar⟩

/-- Python str.lower (ASCII fragment). -/
def pyLower (s : String) : String := ⟨s.data.map lowerChar⟩

/-- First-match association-list lookup, modelling Python dict subscripting
(the dict literals in the source have pairwise distinct keys). -/
def lookup {α : Type} : List (String × α) → String → Option α
  | [], _ => none
  | (a, v) :: rest, k => if a = k then some v else lookup rest k

/-- US_STATES table from src/utils/state_validator.py, in source order. -/
def US_STATES : List (String × String) := [
  ("AL", "Alabama"), ("AK", "Alaska"), ("AZ", "Arizona"), ("AR", "Arkansas"), ("CA", "California"),
  ("CO", "Colorado"), ("CT", "Connecticut"), ("DE", "Delaware"), ("FL", "Florida"), ("GA", "Georgia"),
  ("HI", "Hawaii"), ("ID", "Idaho"), ("IL", "Illinois"), ("IN", "Indiana"), ("IA", "Iowa"),
  ("KS", "Kansas"), ("KY", "Kentucky"), ("LA", "Louisiana"), ("ME", "Maine"), ("MD", "Maryland"),
  ("MA", "Massachusetts"), ("MI", "Michigan"), ("MN", "Minnesota"), ("MS", "Mississippi"), ("MO", "Missouri"),
  ("MT", "Montana"), ("NE", "Nebraska"), ("NV", "Nevada"), ("NH", "New Hampshire"), ("NJ", "New Jersey"),
  ("NM", "New Mexico"), ("NY", "New York"), ("NC", "North Carolina"), ("ND", "North Dakota"), ("OH", "Ohio"),
  ("OK", "Oklahoma"), ("OR", "Oregon"), ("PA", "Pennsylvania"), ("RI", "Rhode Island"), ("SC", "South Carolina"),
  ("SD", "South Dakota"), ("TN", "Tennessee"), ("TX", "Texas"), ("UT", "Utah"), ("VT", "Vermont"),
  ("VA", "Virginia"), ("WA", "Washington"), ("WV", "West Virginia"), ("WI", "Wisconsin"), ("WY", "Wyoming"),
  ("DC", "District of Columbia"), ("PR", "Puerto Rico"), ("VI", "US Virgin Islands"),
  ("AS", "American Samoa"), ("GU", "Guam"), ("MP", "Northern Mariana Islands")]

/-- STATE_ALIASES table from src/utils/state_validator.py, in source order. -/
def STATE_ALIASES : List (String × String) := [
  ("CALIF", "CA"), ("CALI", "CA"), ("CALIFORNIA", "CA"),
  ("TEXAS", "TX"), ("TEX", "TX"),
  ("FLORIDA", "FL"), ("FLA", "FL"),
  ("NEW YORK", "NY"), ("NEWYORK", "NY"), ("NY STATE", "NY"),
  ("PENNSYLVANIA", "PA"), ("PENN", "PA"),
  ("MASSACHUSETTS", "MA"), ("MASS", "MA"),
  ("NORTH CAROLINA", "NC"), ("N CAROLINA", "NC"), ("N.C.", "NC"),
  ("SOUTH CAROLINA", "SC"), ("S CAROLINA", "SC"), ("S.C.", "SC"),
  ("NEW JERSEY", "NJ"), ("N JERSEY", "NJ"), ("N.J.", "NJ"),
  ("NEW HAMPSHIRE", "NH"), ("N HAMPSHIRE", "NH"), ("N.H.", "NH"),
  ("NEW MEXICO", "NM"), ("N MEXICO", "NM"), ("N.M.", "NM"),
  ("WEST VIRGINIA", "WV"), ("W VIRGINIA", "WV"), ("W.V.", "WV"),
  ("NORTH DAKOTA", "ND"), ("N DAKOTA", "ND"), ("N.D.", "ND"),
  ("SOUTH DAKOTA", "SD"), ("S DAKOTA", "SD"), ("S.D.", "SD"),
  ("WASHINGTON", "WA"), ("WASH", "WA"),
  ("DISTRICT OF COLUMBIA", "DC"), ("D.C.", "DC"), ("WASHINGTON DC", "DC"),
  ("PUERTO RICO", "PR")]

/-- FULL_NAME_TO_ABBREV: reverse mapping built by comprehension from US_STATES. -/
def FULL_NAME_TO_ABBREV : List (String × String) :=
  US_STATES.map (fun p => (pyUpper p.2, p.1))

/-- Prefix test on character lists (Python str.startswith). -/
def isPrefList : List Char → List Char → Bool
  | [], _ => true
  | _ :: _, [] => false
  | a :: as, b :: bs => a == b && isPrefList as bs

/-- Python s.startswith(pre). -/
def pyStartsWith (s pre : String) : Bool := isPrefList pre.data s.data

/-- Substring test (Python needle in haystack). -/
def isSubstrList : List Char → List Char → Bool
  | n, [] => n.isEmpty
  | n, h :: t => isPrefList n (h :: t) || isSubstrList n t

/-- Python needle in haystack for strings. -/
def pyIn (needle hay : String) : Bool := isSubstrList needle.data hay.data

/-- Python s[:n] slice. -/
def pyTake (s : String) (n : Nat) : String := ⟨s.data.take n⟩

/-- Python str.split() with no arguments: split on whitespace runs, no empty parts. -/
def splitWsAux : List Char → List Char → List String
  | acc, [] => if acc.isEmpty then [] else [⟨acc.reverse⟩]
  | acc, c :: rest =>
    if pyIsSpace c then
      if acc.isEmpty then splitWsAux [] rest
      else (⟨acc.reverse⟩ : String) :: splitWsAux [] rest
    else splitWsAux (c :: acc) rest

/-- Python str.split() on a string. -/
def pySplitWs (s : String) : List String := splitWsAux [] s.data

/-- First loop of StateValidator._find_closest_match: scan abbreviations for
two-character prefix overlap with the input. -/
def scanAbbrevs (inp : String) : List (String × String) → Option String
  | [] => none
  | (ab, _) :: rest =>
    if pyStartsWith inp (pyTake ab 2) || pyStartsWith ab (pyTake inp 2) then
      some (ab ++ " (" ++ ((lookup US_STATES ab).getD "") ++ ")")
    else scanAbbrevs inp rest

/-- Second loop of _find_closest_match: scan full names for substring, prefix,
or word-prefix relations with the input. -/
def scanFullNames (inp : String) : List (String × String) → Option String
  | [] => none
  | (ab, full) :: rest =>
    if pyIn inp (pyUpper full) || pyStartsWith (pyUpper full) inp
        || (pySplitWs (pyUpper full)).any (fun w => pyStartsWith w inp) then
      some (ab ++ " (" ++ full ++ ")")
    else scanFullNames inp rest

/-- Third loop of _find_closest_match: scan aliases for substring or prefix relations. -/
def scanAliases (inp : String) : List (String × String) → Option String
  | [] => none
  | (alias0, ab) :: rest =>
    if pyIn inp alias0 || pyStartsWith alias0 inp then
      some (ab ++ " (" ++ ((lookup US_STATES ab).getD "") ++ ")")
    else scanAliases inp rest

/-- StateValidator._find_closest_match from src/utils/state_validator.py. -/
def find_closest_match (invalid_input : String) : Option String :=
  let inp := pyUpper invalid_input
  match scanAbbrevs inp US_STATES with
  | some r => some r
  | none =>
    match scanFullNames inp US_STATES with
    | some r => some r
    | none => scanAliases inp STATE_ALIASES

/-- StateValidator.validate_state from src/utils/state_validator.py. -/
def validate_state (state_input : String) : Bool × Option String × Option String :=
  if state_input = "" || pyStrip state_input = "" then (true, none, none)
  else
    let clean := pyUpper (pyStrip state_input)
    if (lookup US_STATES clean).isSome then (true, some clean, none)
    else
      match lookup STATE_ALIASES clean with
      | some v => (true, some v, none)
      | none =>
        match lookup FULL_NAME_TO_ABBREV clean with
        | some v => (true, some v, none)
        | none => (false, none, find_closest_match clean)


/-- Python exception kinds that the weather client code in src/core/weather_api.py
can raise or catch. WeatherAPIError is the custom class defined there; the
request kinds model the requests library exceptions. -/
inductive PyExc where
  | valueError (msg : String)
  | keyError (msg : String)
  | weatherAPIError (msg : String)
  | requestTimeout
  | requestConnectionError
  | requestException (msg : String)
  | indexError (msg : String)
deriving DecidableEq

/-- Python str(e) on an exception, as used when the code interpolates a caught
exception into a new message. A KeyError prints its argument repr-quoted. -/
def pyExcStr : PyExc → String
  | .valueError m => m
  | .keyError m => "\x27" ++ m ++ "\x27"
  | .weatherAPIError m => m
  | .requestTimeout => ""
  | .requestConnectionError => ""
  | .requestException m => m
  | .indexError m => m

/-- Parsed JSON value, the shape of what response.json() can return. -/
inductive JVal where
  | num (q : Rat)
  | str (s : String)
  | bool (b : Bool)
  | null
  | arr (xs : List JVal)
  | obj (fields : List (String × JVal))

/-- Dictionary field access on a JSON value; none on a missing key or a
non-object value. -/
def jIndex : JVal → String → Option JVal
  | .obj fields, k => lookup fields k
  | _, _ => none

/-- Python key in value membership test for a JSON object. -/
def jHasKey (v : JVal) (k : String) : Bool := (jIndex v k).isSome

/-- First element of a JSON array (Python indexing with [0]); none when the
value is not a nonempty array. -/
def jFirst : JVal → Option JVal
  | .arr (x :: _) => some x
  | _ => none

/-- Python truthiness of a JSON value. -/
def jTruthy : JVal → Bool
  | .num q => !(q == 0)
  | .str s => !(s == "")
  | .bool b => b
  | .null => false
  | .arr xs => !xs.isEmpty
  | .obj fs => !fs.isEmpty

/-- Outcome of requests.get(url, timeout=10): a transport exception or an HTTP
response carrying a status code, the raw text, and the result of parsing the
body as JSON (response.json() raises ValueError on a malformed body). -/
inductive HttpResult where
  | timeout
  | connectionError
  | otherException (msg : String)
  | response (status : Nat) (text : String) (json : Except String JVal)

/-- Python truthiness of an optional-string argument (None and the empty
string are falsy). -/
def pyTruthyOpt : Option String → Bool
  | none => false
  | some s => !(s == "")

/-- Location query composed by WeatherAPI.get_weather_from_api lines 75-91
(get_weather_forecast lines 237-244 duplicate the same logic): start from the
trimmed city, append the trimmed state when the state argument is truthy, in
that case default a falsy country to US, then append the trimmed country when
it is truthy. -/
def location_query (city_name : String) (state country : Option String) : String :=
  let q0 := pyStrip city_name
  let q1 := if pyTruthyOpt state then q0 ++ "," ++ pyStrip (state.getD "") else q0
  let country1 := if pyTruthyOpt state && !(pyTruthyOpt country) then some "US" else country
  if pyTruthyOpt country1 then q1 ++ "," ++ pyStrip (country1.getD "") else q1

/-- Current-weather endpoint, self.api_base_url in the source. -/
def api_base_url : String := "https://api.openweathermap.org/data/2.5/weather"

/-- URL built for the current-weather request. -/
def weather_api_url (apiKey lq : String) : String :=
  api_base_url ++ "?q=" ++ lq ++ "&appid=" ++ apiKey ++ "&units=imperial"

/-- WeatherAPI._validate_api_key, run during __init__: the key argument is
none when the key is absent (explicit None). The regex check
re.match applies to the stripped key. -/
def isAlnumChar (c : Char) : Bool :=
  ('a' ≤ c && c ≤ 'z') || ('A' ≤ c && c ≤ 'Z') || ('0' ≤ c && c ≤ '9')

/-- Test for the pattern of 32 alphanumeric characters anchored at both ends,
applied by the source to the stripped key (which has no trailing newline, so
the dollar anchor is an exact end-of-string match). -/
def matches_key_format (s : String) : Bool :=
  s.length == 32 && s.data.all isAlnumChar

/-- Validation performed by WeatherAPI.__init__ via _validate_api_key: raises
WeatherAPIError for a missing, empty, whitespace-only, or badly formatted key.
No network access occurs: the constructor only stores the key and validates
its shape, so this function needs no HTTP oracle. -/
def validate_api_key : Option String → Except PyExc Unit
  | none => Except.error (.weatherAPIError ("API key not found. Please ensure you have:\n1. Created a .env file in the project root\n2. Added your OpenWeatherMap API key as: api_key=YOUR_API_KEY\n3. Obtained a valid API key from https://openweathermap.org/api"))
  | some k =>
    if k == "" || pyStrip k == "" then
      Except.error (.weatherAPIError "API key is empty. Please check your .env file and ensure it contains a valid API key.")
    else if !(matches_key_format (pyStrip k)) then
      Except.error (.weatherAPIError "Invalid API key format. OpenWeatherMap API keys should be 32 characters long and contain only letters and numbers.\nPlease check your API key at https://openweathermap.org/api")
    else Except.ok ()

/-- Result dictionary returned by get_weather_from_api: the three raw JSON
values extracted from the payload, with no conversion. -/
structure WeatherData where
  temperature : JVal
  description : JVal
  humidity : JVal

/-- Extraction step of get_weather_from_api lines 140-151: reads main.temp,
weather[0].description and main.humidity in that order; a missing key raises
KeyError, caught and rewrapped as WeatherAPIError. -/
def extract_reading (wd wth : JVal) : Except PyExc WeatherData :=
  let mn := (jIndex wd "main").getD JVal.null
  match jIndex mn "temp" with
  | none => Except.error (.weatherAPIError "Missing expected data in API response: \x27temp\x27")
  | some t =>
    match (jFirst wth).bind (fun w0 => jIndex w0 "description") with
    | none => Except.error (.weatherAPIError "Missing expected data in API response: \x27description\x27")
    | some d =>
      match jIndex mn "humidity" with
      | none => Except.error (.weatherAPIError "Missing expected data in API response: \x27humidity\x27")
      | some h => Except.ok ⟨t, d, h⟩

/-- Status-code and body classification of get_weather_from_api lines 106-151.
A 404 raises KeyError with the location query in the message; every other
failure raises WeatherAPIError. A weather field that is truthy but not an
array is modelled as failing the description presence check. -/
def classify_response (lq : String) (status : Nat) (text : String)
    (js : Except String JVal) : Except PyExc WeatherData :=
  if status == 401 then
    Except.error (.weatherAPIError ("Invalid API key. Please check your OpenWeatherMap API key.\nMake sure:\n1. Your API key is correct in the .env file\n2. Your API key is active (new keys may take up to 2 hours to activate)\n3. You have API calls remaining in your plan"))
  else if status == 404 then
    Except.error (.keyError ("Location \x27" ++ lq ++ "\x27 not found. Please check the spelling and try again."))
  else if status == 429 then
    Except.error (.weatherAPIError "API rate limit exceeded. Please wait a moment and try again, or upgrade your OpenWeatherMap plan.")
  else if status == 500 then
    Except.error (.weatherAPIError "OpenWeatherMap server error. Please try again later.")
  else if status != 200 then
    Except.error (.weatherAPIError ("API request failed with status " ++ toString status ++ ": " ++ text))
  else
    match js with
    | .error m => Except.error (.weatherAPIError ("Invalid response format from API: " ++ m))
    | .ok wd =>
      if !(jHasKey wd "main") || !(jHasKey wd "weather") then
        Except.error (.weatherAPIError "Invalid response structure from API")
      else
        let wth := (jIndex wd "weather").getD JVal.null
        if !(jTruthy wth) ||
            !(match jFirst wth with | some w0 => jHasKey w0 "description" | none => false) then
          Except.error (.weatherAPIError "Missing weather description in API response")
        else extract_reading wd wth

/-- Body of the try block of WeatherAPI.get_weather_from_api. The second
component lists the URLs requested over the network, in order; it is empty
when the function fails before reaching requests.get. -/
def get_weather_inner (apiKey : String) (http : String → HttpResult)
    (city_name : String) (state country : Option String) :
    Except PyExc WeatherData × List String :=
  if city_name == "" || pyStrip city_name == "" then
    (Except.error (.valueError "City name cannot be empty"), [])
  else
    let lq := location_query city_name state country
    let url := weather_api_url apiKey lq
    match http url with
    | .timeout =>
      (Except.error (.weatherAPIError "Request timed out. Please check your internet connection and try again."), [url])
    | .connectionError =>
      (Except.error (.weatherAPIError "Network connection error. Please check your internet connection."), [url])
    | .otherException m =>
      (Except.error (.weatherAPIError ("Network error occurred: " ++ m)), [url])
    | .response status text js => (classify_response lq status text js, [url])

/-- Outer except clauses of get_weather_from_api lines 153-161: KeyError,
ValueError and WeatherAPIError are re-raised unchanged; anything else would be
wrapped as an unexpected error. -/
def reraise_filter : PyExc → PyExc
  | .keyError m => .keyError m
  | .valueError m => .valueError m
  | .weatherAPIError m => .weatherAPIError m
  | e => .weatherAPIError ("Unexpected error occurred: " ++ pyExcStr e)

/-- WeatherAPI.get_weather_from_api from src/core/weather_api.py, with the
network modelled by the http oracle. -/
def get_weather_from_api (apiKey : String) (http : String → HttpResult)
    (city_name : String) (state country : Option String) :
    Except PyExc WeatherData × List String :=
  let r := get_weather_inner apiKey http city_name state country
  (r.1.mapError reraise_filter, r.2)

/-- Entry of the list built by get_weather_forecast: the raw dt value stands
for the datetime derived from it. -/
structure ForecastEntry where
  dt : JVal
  temperature : JVal
  humidity : JVal
  description : JVal
  city : String

/-- Per-item extraction of get_weather_forecast lines 259-265, reading
item.dt, item.main.temp, item.main.humidity and item.weather[0].description. -/
def forecast_item (city_name : String) (item : JVal) : Except PyExc ForecastEntry :=
  match jIndex item "dt" with
  | none => Except.error (.keyError "dt")
  | some dtv =>
    match jIndex item "main" with
    | none => Except.error (.keyError "main")
    | some mn =>
      match jIndex mn "temp" with
      | none => Except.error (.keyError "temp")
      | some t =>
        match jIndex mn "humidity" with
        | none => Except.error (.keyError "humidity")
        | some h =>
          match jIndex item "weather" with
          | none => Except.error (.keyError "weather")
          | some w =>
            match jFirst w with
            | none => Except.error (.indexError "list index out of range")
            | some w0 =>
              match jIndex w0 "description" with
              | none => Except.error (.keyError "description")
              | some d => Except.ok ⟨dtv, t, h, d, city_name⟩

/-- Loop of get_weather_forecast over the truncated item list; the first
raising item aborts the whole call. -/
def forecast_items (city_name : String) : List JVal → Except PyExc (List ForecastEntry)
  | [] => Except.ok []
  | it :: rest =>
    match forecast_item city_name it with
    | .error e => Except.error e
    | .ok fe =>
      match forecast_items city_name rest with
      | .error e => Except.error e
      | .ok l => Except.ok (fe :: l)

/-- Body of the try block of WeatherAPI.get_weather_forecast lines 233-267.
The list value is read with dict.get defaulting to an empty list and sliced
to at most 40 items; a non-array value there is modelled as empty. -/
def get_forecast_inner (apiKey : String) (http : String → HttpResult)
    (city_name : String) (state country : Option String) :
    Except PyExc (List ForecastEntry) × List String :=
  if city_name == "" || pyStrip city_name == "" then
    (Except.error (.valueError "City name cannot be empty"), [])
  else
    let lq := location_query city_name state country
    let url := "https://api.openweathermap.org/data/2.5/forecast?q=" ++ lq ++ "&appid=" ++ apiKey ++ "&units=imperial"
    match http url with
    | .timeout => (Except.error .requestTimeout, [url])
    | .connectionError => (Except.error .requestConnectionError, [url])
    | .otherException m => (Except.error (.requestException m), [url])
    | .response status _text js =>
      if status != 200 then
        (Except.error (.weatherAPIError ("Forecast API request failed with status " ++ toString status)), [url])
      else
        match js with
        | .error m => (Except.error (.valueError m), [url])
        | .ok fd =>
          let items := match jIndex fd "list" with
            | some (.arr xs) => xs.take 40
            | some _ => []
            | none => []
          (forecast_items city_name items, [url])

/-- WeatherAPI.get_weather_forecast from src/core/weather_api.py. Its single
except clause (lines 269-271) catches every exception, including the
ValueError raised for an empty city and its own WeatherAPIError raises, and
rewraps it as WeatherAPIError with an Unexpected error occurred prefix. -/
def get_weather_forecast (apiKey : String) (http : String → HttpResult)
    (city_name : String) (state country : Option String) :
    Except PyExc (List ForecastEntry) × List String :=
  let r := get_forecast_inner apiKey http city_name state country
  (r.1.mapError (fun e => .weatherAPIError ("Unexpected error occurred: " ++ pyExcStr e)), r.2)

/-- Python dict subscript tbl[k]: the value, or KeyError when absent. Used to
model the subscripts inside StateValidator, which never fail only because
every subscripted key was checked or comes from the tables themselves. -/
def dict_get (tbl : List (String × String)) (k : String) : Except PyExc String :=
  match lookup tbl k with
  | some v => Except.ok v
  | none => Except.error (.keyError k)

/-- Exception-aware version of the first _find_closest_match loop: the return
statement subscripts self.valid_states[abbrev]. -/
def scanAbbrevsE (inp : String) : List (String × String) → Except PyExc (Option String)
  | [] => Except.ok none
  | (ab, _) :: rest =>
    if pyStartsWith inp (pyTake ab 2) || pyStartsWith ab (pyTake inp 2) then
      match dict_get US_STATES ab with
      | .ok full => Except.ok (some (ab ++ " (" ++ full ++ ")"))
      | .error e => Except.error e
    else scanAbbrevsE inp rest

/-- Exception-aware version of the third _find_closest_match loop: the return
statement subscripts self.valid_states[abbrev] with the alias target. -/
def scanAliasesE (inp : String) : List (String × String) → Except PyExc (Option String)
  | [] => Except.ok none
  | (alias0, ab) :: rest =>
    if pyIn inp alias0 || pyStartsWith alias0 inp then
      match dict_get US_STATES ab with
      | .ok full => Except.ok (some (ab ++ " (" ++ full ++ ")"))
      | .error e => Except.error e
    else scanAliasesE inp rest

/-- Exception-aware _find_closest_match: every dictionary subscript is
modelled as a possibly raising operation. The second loop iterates over
items() pairs and subscripts nothing. -/
def find_closest_matchE (invalid_input : String) : Except PyExc (Option String) :=
  let inp := pyUpper invalid_input
  match scanAbbrevsE inp US_STATES with
  | .error e => Except.error e
  | .ok (some r) => Except.ok (some r)
  | .ok none =>
    match scanFullNames inp US_STATES with
    | some r => Except.ok (some r)
    | none => scanAliasesE inp STATE_ALIASES

/-- Exception-aware validate_state: the alias and full-name branches subscript
their dictionaries after an in check, and the fallback calls the suggestion
heuristics. This is the function whose result being Except.ok on all inputs
expresses that validate_state never raises. -/
def validate_stateE (state_input : String) :
    Except PyExc (Bool × Option String × Option String) :=
  if state_input = "" || pyStrip state_input = "" then Except.ok (true, none, none)
  else
    let clean := pyUpper (pyStrip state_input)
    if (lookup US_STATES clean).isSome then Except.ok (true, some clean, none)
    else if (lookup STATE_ALIASES clean).isSome then
      match dict_get STATE_ALIASES clean with
      | .ok v => Except.ok (true, some v, none)
      | .error e => Except.error e
    else if (lookup FULL_NAME_TO_ABBREV clean).isSome then
      match dict_get FULL_NAME_TO_ABBREV clean with
      | .ok v => Except.ok (true, some v, none)
      | .error e => Except.error e
    else
      match find_closest_matchE clean with
      | .ok sugg => Except.ok (false, none, sugg)
      | .error e => Except.error e

/-- Concrete nested weather object used to exercise the success path. -/
def sample_main : JVal :=
  JVal.obj [("temp", JVal.num (753 / 10)), ("humidity", JVal.num 60)]

/-- Concrete first element of the weather array. -/
def sample_weather0 : JVal := JVal.obj [("description", JVal.str "clear sky")]

/-- Concrete well-formed 200 payload with main.temp, main.humidity and
weather[0].description. -/
def sample_payload : JVal :=
  JVal.obj [("main", sample_main), ("weather", JVal.arr [sample_weather0])]

/-- Strings with equal character data are equal. -/
theorem string_eq_of_data (a b : String) (h : a.data = b.data) : a = b := by
  cases a; cases b; exact congrArg String.mk h

/-- Character data of an appended string. -/
theorem data_append (a b : String) : (a ++ b).data = a.data ++ b.data := by
  cases a; cases b; rfl

/-- Associativity of string append. -/
theorem string_append_assoc (a b c : String) : a ++ b ++ c = a ++ (b ++ c) := by
  apply string_eq_of_data
  simp [data_append]

/-- Stripping the literal US leaves it unchanged. -/
theorem pyStrip_us : pyStrip "US" = "US" := rfl

/-- Appending a comma to US folds to a literal. -/
theorem comma_append_us : ("," : String) ++ "US" = ",US" := rfl

/-- C8: validate_state answers (true, none, none) on every input that is
empty or whitespace-only: the absence of a state is valid, with no
normalized code and no suggestion. -/
theorem c8_empty_state_valid (s : String) (h : pyStrip s = "") :
    validate_state s = (true, none, none) := by
  simp [validate_state, h]

/-- Witness for C8 at the three-space input. -/
theorem c8_empty_state_valid_witness :
    validate_state "   " = (true, none, none) :=
  c8_empty_state_valid "   " rfl

/-- C6: every canonical two-letter code and every full state name of the 56
US_STATES entries, in table casing or all-lowercase, validates to
(true, code, none). -/
theorem c6_codes_and_names_normalize :
    ∀ p ∈ US_STATES,
      validate_state p.1 = (true, some p.1, none) ∧
      validate_state (pyLower p.1) = (true, some p.1, none) ∧
      validate_state p.2 = (true, some p.1, none) ∧
      validate_state (pyLower p.2) = (true, some p.1, none) := by decide

/-- Witness for C6 at the Florida entry. -/
theorem c6_codes_and_names_normalize_witness :
    validate_state "FL" = (true, some "FL", none) ∧
    validate_state (pyLower "FL") = (true, some "FL", none) ∧
    validate_state "Florida" = (true, some "FL", none) ∧
    validate_state (pyLower "Florida") = (true, some "FL", none) :=
  c6_codes_and_names_normalize ("FL", "Florida") (by decide)

/-- C4: the composed location query is city,state,US when a state is given
without a country (country defaulted to US), city,country when a country is
given without a state (no US defaulting), and the trimmed city alone when
neither is given. -/
theorem c4_location_query_rules (city s c : String)
    (_hcity : pyStrip city ≠ "") (hs : s ≠ "") (hc : c ≠ "") :
    location_query city (some s) none = pyStrip city ++ "," ++ pyStrip s ++ ",US" ∧
    location_query city none (some c) = pyStrip city ++ "," ++ pyStrip c ∧
    location_query city none none = pyStrip city := by
  refine ⟨?_, ?_, ?_⟩
  · simp [location_query, pyTruthyOpt, hs, string_append_assoc, pyStrip_us, comma_append_us]
  · simp [location_query, pyTruthyOpt, hc]
  · simp [location_query, pyTruthyOpt]

/-- Witness for C4 on Miami with state FL and country CA. -/
theorem c4_location_query_rules_witness :
    location_query "Miami" (some "FL") none = "Miami,FL,US" ∧
    location_query "Miami" none (some "CA") = "Miami,CA" ∧
    location_query "Miami" none none = "Miami" := by
  have h := c4_location_query_rules "Miami" "FL" "CA" (by decide) (by decide) (by decide)
  exact ⟨h.1.trans (by decide), h.2.1.trans (by decide), h.2.2.trans (by decide)⟩

/-- C2 counterexample: a key made of a leading space and 32 letters is not
itself exactly 32 alphanumeric characters, yet construction succeeds, because
_validate_api_key applies the format regex to the stripped key. -/
theorem c2_trimmed_key_counterexample :
    validate_api_key (some " aaaaaaaaaaaaaaaaaaaaaaaaaaaaaaaa") = Except.ok () ∧
    matches_key_format " aaaaaaaaaaaaaaaaaaaaaaaaaaaaaaaa" = false :=
  ⟨rfl, rfl⟩

/-- C2 amended: construction succeeds exactly when a key is supplied whose
whitespace-trimmed value is 32 alphanumeric characters (so an exactly
32-character alphanumeric key succeeds, and an absent, empty, whitespace-only
or 31-character key fails); every failure is the WeatherAPIError raised by
_validate_api_key, and no HTTP oracle is involved in construction. -/
theorem c2_amended_key_validation (k : Option String) :
    (validate_api_key k = Except.ok () ↔
      ∃ s, k = some s ∧ matches_key_format (pyStrip s) = true) ∧
    (validate_api_key k = Except.ok () ∨
      ∃ m, validate_api_key k = Except.error (PyExc.weatherAPIError m)) := by
  cases k with
  | none =>
    constructor
    · constructor
      · intro h; simp [validate_api_key] at h
      · rintro ⟨s, hs, -⟩; exact Option.noConfusion hs
    · exact Or.inr ⟨_, rfl⟩
  | some s =>
    by_cases h1 : (s == "" || pyStrip s == "") = true
    · have hstrip : pyStrip s = "" := by
        simp only [Bool.or_eq_true, beq_iff_eq] at h1
        rcases h1 with h | h
        · subst h; rfl
        · exact h
      have hv : validate_api_key (some s) = Except.error (.weatherAPIError
          "API key is empty. Please check your .env file and ensure it contains a valid API key.") := by
        simp [validate_api_key, h1]
      rw [hv]
      constructor
      · constructor
        · intro h; simp at h
        · rintro ⟨s2, hs2, hm⟩
          cases hs2
          rw [hstrip] at hm
          exact absurd hm (by decide)
      · exact Or.inr ⟨_, rfl⟩
    · have h1f : (s == "" || pyStrip s == "") = false := by
        simpa using h1
      by_cases h2 : matches_key_format (pyStrip s) = true
      · have hv : validate_api_key (some s) = Except.ok () := by
          simp [validate_api_key, h1f, h2]
        rw [hv]
        exact ⟨⟨fun _ => ⟨s, rfl, h2⟩, fun _ => rfl⟩, Or.inl rfl⟩
      · have h2f : matches_key_format (pyStrip s) = false := by simpa using h2
        have hv : validate_api_key (some s) = Except.error (.weatherAPIError
            "Invalid API key format. OpenWeatherMap API keys should be 32 characters long and contain only letters and numbers.\nPlease check your API key at https://openweathermap.org/api") := by
          simp [validate_api_key, h1f, h2f]
        rw [hv]
        constructor
        · constructor
          · intro h; simp at h
          · rintro ⟨s2, hs2, hm⟩
            cases hs2
            rw [hm] at h2f
            simp at h2f
        · exact Or.inr ⟨_, rfl⟩

/-- C5: an empty or whitespace-only city makes get_weather_from_api fail with
the ValueError raised for the empty city, and the list of issued requests is
empty: the failure happens before the HTTP layer is reached. -/
theorem c5_empty_city_input_error (apiKey : String) (http : String → HttpResult)
    (city_name : String) (state country : Option String)
    (h : (city_name == "" || pyStrip city_name == "") = true) :
    get_weather_from_api apiKey http city_name state country =
      (Except.error (PyExc.valueError "City name cannot be empty"), ([] : List String)) := by
  simp [get_weather_from_api, get_weather_inner, h, reraise_filter, Except.mapError]

/-- Witness for C5 at the empty city. -/
theorem c5_empty_city_input_error_witness :
    get_weather_from_api "k" (fun _ => HttpResult.timeout) "" none none =
      (Except.error (PyExc.valueError "City name cannot be empty"), ([] : List String)) :=
  c5_empty_city_input_error "k" (fun _ => HttpResult.timeout) "" none none (by decide)

/-- C9 counterexample: on an empty city, get_weather_forecast raises the
generic WeatherAPIError produced by its catch-all handler, while
get_weather_from_api raises the distinct ValueError; the two error kinds
differ, contradicting the claim that get_forecast fails with the same
InputError kind. -/
theorem c9_forecast_error_kind_counterexample :
    (get_weather_forecast "k" (fun _ => HttpResult.timeout) "" none none).1 =
      Except.error (PyExc.weatherAPIError "Unexpected error occurred: City name cannot be empty") ∧
    (get_weather_from_api "k" (fun _ => HttpResult.timeout) "" none none).1 =
      Except.error (PyExc.valueError "City name cannot be empty") ∧
    PyExc.weatherAPIError "Unexpected error occurred: City name cannot be empty" ≠
      PyExc.valueError "City name cannot be empty" :=
  ⟨rfl, rfl, by decide⟩

/-- C9 amended: get_weather_forecast composes its query by the same rules and
fails before any network request on an empty or whitespace-only city, but its
catch-all except clause wraps the empty-city ValueError into the generic
WeatherAPIError kind with an Unexpected error occurred prefix, not the
distinct input-error kind that get_weather_from_api lets escape. -/
theorem c9_amended_forecast_empty_city (apiKey : String) (http : String → HttpResult)
    (city_name : String) (state country : Option String)
    (h : (city_name == "" || pyStrip city_name == "") = true) :
    get_weather_forecast apiKey http city_name state country =
      (Except.error (PyExc.weatherAPIError "Unexpected error occurred: City name cannot be empty"),
       ([] : List String)) := by
  simp [get_weather_forecast, get_forecast_inner, h, Except.mapError, pyExcStr]

/-- Witness for the amended C9 at the empty city. -/
theorem c9_amended_forecast_empty_city_witness :
    get_weather_forecast "k" (fun _ => HttpResult.timeout) "" none none =
      (Except.error (PyExc.weatherAPIError "Unexpected error occurred: City name cannot be empty"),
       ([] : List String)) :=
  c9_amended_forecast_empty_city "k" (fun _ => HttpResult.timeout) "" none none (by decide)

/-- C1: when the provider answers 404, get_weather_from_api fails with the
KeyError kind whose message contains the composed location query, and the
result is not the generic WeatherAPIError kind nor the ValueError kind. -/
theorem c1_http_404_not_found (apiKey city_name : String) (state country : Option String)
    (http : String → HttpResult) (text : String) (js : Except String JVal)
    (hcity : (city_name == "" || pyStrip city_name == "") = false)
    (hhttp : http (weather_api_url apiKey (location_query city_name state country)) =
      HttpResult.response 404 text js) :
    get_weather_from_api apiKey http city_name state country =
      (Except.error (PyExc.keyError ("Location \x27" ++ location_query city_name state country ++
        "\x27 not found. Please check the spelling and try again.")),
       [weather_api_url apiKey (location_query city_name state country)]) ∧
    (∃ a b, "Location \x27" ++ location_query city_name state country ++
        "\x27 not found. Please check the spelling and try again." =
        a ++ location_query city_name state country ++ b) ∧
    (∀ m, (get_weather_from_api apiKey http city_name state country).1 ≠
      Except.error (PyExc.weatherAPIError m)) ∧
    (∀ m, (get_weather_from_api apiKey http city_name state country).1 ≠
      Except.error (PyExc.valueError m)) := by
  have hmain : get_weather_from_api apiKey http city_name state country =
      (Except.error (PyExc.keyError ("Location \x27" ++ location_query city_name state country ++
        "\x27 not found. Please check the spelling and try again.")),
       [weather_api_url apiKey (location_query city_name state country)]) := by
    simp [get_weather_from_api, get_weather_inner, hcity, hhttp, classify_response,
      reraise_filter, Except.mapError]
  refine ⟨hmain,
    ⟨"Location \x27", "\x27 not found. Please check the spelling and try again.", rfl⟩, ?_, ?_⟩
  · intro m; simp [hmain]
  · intro m; simp [hmain]

/-- Witness for C1: a 404 on Nonexistentville with state FL and no country,
whose composed query is Nonexistentville,FL,US. -/
theorem c1_http_404_not_found_witness :
    get_weather_from_api "k" (fun _ => HttpResult.response 404 "" (Except.error "no body"))
        "Nonexistentville" (some "FL") none =
      (Except.error (PyExc.keyError ("Location \x27" ++
        location_query "Nonexistentville" (some "FL") none ++
        "\x27 not found. Please check the spelling and try again.")),
       [weather_api_url "k" (location_query "Nonexistentville" (some "FL") none)]) ∧
    location_query "Nonexistentville" (some "FL") none = "Nonexistentville,FL,US" :=
  ⟨(c1_http_404_not_found "k" "Nonexistentville" (some "FL") none
      (fun _ => HttpResult.response 404 "" (Except.error "no body")) "" (Except.error "no body")
      (by decide) rfl).1,
   by decide⟩

/-- C3: a 200 response whose parsed body carries main.temp, main.humidity and
weather[0].description makes get_weather_from_api return exactly those three
raw values, unchanged and unconverted. -/
theorem c3_success_passthrough (apiKey city_name : String) (state country : Option String)
    (http : String → HttpResult) (text : String) (wd mn w0 : JVal) (rest : List JVal)
    (t d h : JVal)
    (hcity : (city_name == "" || pyStrip city_name == "") = false)
    (hhttp : http (weather_api_url apiKey (location_query city_name state country)) =
      HttpResult.response 200 text (Except.ok wd))
    (hmain : jIndex wd "main" = some mn)
    (hweather : jIndex wd "weather" = some (JVal.arr (w0 :: rest)))
    (htemp : jIndex mn "temp" = some t)
    (hdesc : jIndex w0 "description" = some d)
    (hhum : jIndex mn "humidity" = some h) :
    get_weather_from_api apiKey http city_name state country =
      (Except.ok ⟨t, d, h⟩,
       [weather_api_url apiKey (location_query city_name state country)]) := by
  simp [get_weather_from_api, get_weather_inner, hcity, hhttp, classify_response,
    jHasKey, hmain, hweather, extract_reading, jTruthy, jFirst, htemp, hdesc, hhum,
    Except.mapError]

/-- Witness for C3 with temp 75.3, humidity 60 and description clear sky. -/
theorem c3_success_passthrough_witness :
    get_weather_from_api "k"
        (fun _ => HttpResult.response 200 "" (Except.ok sample_payload)) "Miami" none none =
      (Except.ok ⟨JVal.num (753 / 10), JVal.str "clear sky", JVal.num 60⟩,
       [weather_api_url "k" (location_query "Miami" none none)]) :=
  c3_success_passthrough "k" "Miami" none none
    (fun _ => HttpResult.response 200 "" (Except.ok sample_payload)) "" sample_payload
    sample_main sample_weather0 [] (JVal.num (753 / 10)) (JVal.str "clear sky") (JVal.num 60)
    (by decide) rfl rfl rfl rfl rfl rfl

/-- Keys found by lookup belong to the table. -/
theorem lookup_mem {α : Type} (tbl : List (String × α)) (k : String) (v : α)
    (h : lookup tbl k = some v) : (k, v) ∈ tbl := by
  induction tbl with
  | nil => exact absurd h (by simp [lookup])
  | cons p rest ih =>
    obtain ⟨a, w⟩ := p
    by_cases hak : a = k
    · subst hak
      have hwv : w = v := by simpa [lookup] using h
      subst hwv
      exact List.mem_cons_self _ _
    · simp only [lookup, if_neg hak] at h
      exact List.mem_cons_of_mem _ (ih h)

/-- Every canonical code is a fixed point of validation. -/
theorem valid_code_keys :
    ∀ p ∈ US_STATES, validate_state p.1 = (true, some p.1, none) := by decide

/-- Every alias target is a fixed point of validation. -/
theorem valid_alias_targets :
    ∀ p ∈ STATE_ALIASES, validate_state p.2 = (true, some p.2, none) := by decide

/-- Every full-name mapping target is a fixed point of validation. -/
theorem valid_fullname_targets :
    ∀ p ∈ FULL_NAME_TO_ABBREV, validate_state p.2 = (true, some p.2, none) := by decide

/-- C10: whenever validate_state accepts an input and returns a normalized
code, validating that code again returns the same code: every alias value and
full-name target is itself a canonical key, so normalization is idempotent. -/
theorem c10_normalization_idempotent (s c : String)
    (h : validate_state s = (true, some c, none)) :
    validate_state c = (true, some c, none) := by
  unfold validate_state at h
  split at h
  · simp at h
  · rcases hk : lookup US_STATES (pyUpper (pyStrip s)) with _ | v
    · rcases ha : lookup STATE_ALIASES (pyUpper (pyStrip s)) with _ | v2
      · rcases hf : lookup FULL_NAME_TO_ABBREV (pyUpper (pyStrip s)) with _ | v3
        · simp [hk, ha, hf] at h
        · simp [hk, ha, hf] at h
          subst h
          exact valid_fullname_targets _ (lookup_mem _ _ _ hf)
      · simp [hk, ha] at h
        subst h
        exact valid_alias_targets _ (lookup_mem _ _ _ ha)
    · simp [hk] at h
      rw [← h]
      exact valid_code_keys _ (lookup_mem _ _ _ hk)

/-- Witness for C10: Calif normalizes to CA, and CA validates to itself. -/
theorem c10_normalization_idempotent_witness :
    validate_state "CA" = (true, some "CA", none) :=
  c10_normalization_idempotent "Calif" "CA" (by decide)

/-- Every table key subscripted by the first suggestion loop is present. -/
theorem us_states_keys_present :
    ∀ p ∈ US_STATES, (lookup US_STATES p.1).isSome = true := by decide

/-- Every alias target subscripted by the third suggestion loop is present. -/
theorem alias_targets_present :
    ∀ p ∈ STATE_ALIASES, (lookup US_STATES p.2).isSome = true := by decide

/-- Subscripts in the abbreviation loop never raise. -/
theorem scanAbbrevsE_ok (inp : String) (tbl : List (String × String))
    (hs : ∀ p ∈ tbl, (lookup US_STATES p.1).isSome = true) :
    scanAbbrevsE inp tbl = Except.ok (scanAbbrevs inp tbl) := by
  induction tbl with
  | nil => rfl
  | cons p rest ih =>
    obtain ⟨ab, full⟩ := p
    have hab : (lookup US_STATES ab).isSome = true := hs (ab, full) (List.mem_cons_self _ _)
    rcases hl : lookup US_STATES ab with _ | v
    · rw [hl] at hab; simp at hab
    · by_cases hc : (pyStartsWith inp (pyTake ab 2) || pyStartsWith ab (pyTake inp 2)) = true
      · simp [scanAbbrevsE, scanAbbrevs, hc, dict_get, hl]
      · have hcf : (pyStartsWith inp (pyTake ab 2) || pyStartsWith ab (pyTake inp 2)) = false := by
          simpa using hc
        simp only [scanAbbrevsE, scanAbbrevs, hcf, Bool.false_eq_true, if_false]
        exact ih (fun q hq => hs q (List.mem_cons_of_mem _ hq))

/-- Subscripts in the alias loop never raise. -/
theorem scanAliasesE_ok (inp : String) (tbl : List (String × String))
    (hs : ∀ p ∈ tbl, (lookup US_STATES p.2).isSome = true) :
    scanAliasesE inp tbl = Except.ok (scanAliases inp tbl) := by
  induction tbl with
  | nil => rfl
  | cons p rest ih =>
    obtain ⟨alias0, ab⟩ := p
    have hab : (lookup US_STATES ab).isSome = true := hs (alias0, ab) (List.mem_cons_self _ _)
    rcases hl : lookup US_STATES ab with _ | v
    · rw [hl] at hab; simp at hab
    · by_cases hc : (pyIn inp alias0 || pyStartsWith alias0 inp) = true
      · simp [scanAliasesE, scanAliases, hc, dict_get, hl]
      · have hcf : (pyIn inp alias0 || pyStartsWith alias0 inp) = false := by simpa using hc
        simp only [scanAliasesE, scanAliases, hcf, Bool.false_eq_true, if_false]
        exact ih (fun q hq => hs q (List.mem_cons_of_mem _ hq))

/-- The suggestion heuristics of _find_closest_match never raise: the
exception-aware version always returns Except.ok of the plain result. -/
theorem find_closest_matchE_ok (x : String) :
    find_closest_matchE x = Except.ok (find_closest_match x) := by
  simp only [find_closest_matchE, find_closest_match]
  rw [scanAbbrevsE_ok (pyUpper x) US_STATES us_states_keys_present]
  rcases h1 : scanAbbrevs (pyUpper x) US_STATES with _ | r
  · rcases h2 : scanFullNames (pyUpper x) US_STATES with _ | r2 <;>
      simp [h1, h2, scanAliasesE_ok (pyUpper x) STATE_ALIASES alias_targets_present]
  · simp [h1]

/-- C7: validate_state never raises on any string input: the exception-aware
embedding, in which every dictionary subscript can raise KeyError, returns
Except.ok of the plain result on every input, and every rejected input comes
back as (false, none, suggestion-or-none). -/
theorem c7_validate_state_never_raises (s : String) :
    validate_stateE s = Except.ok (validate_state s) ∧
    ((validate_state s).1 = false → (validate_state s).2.1 = none) := by
  constructor
  · unfold validate_stateE validate_state
    split
    · rfl
    · rcases hk : lookup US_STATES (pyUpper (pyStrip s)) with _ | v
      · rcases ha : lookup STATE_ALIASES (pyUpper (pyStrip s)) with _ | v2
        · rcases hf : lookup FULL_NAME_TO_ABBREV (pyUpper (pyStrip s)) with _ | v3
          · simp [hk, ha, hf, find_closest_matchE_ok]
          · simp [hk, ha, hf, dict_get]
        · simp [hk, ha, dict_get]
      · simp [hk]
  · unfold validate_state
    split
    · simp
    · rcases hk : lookup US_STATES (pyUpper (pyStrip s)) with _ | v
      · rcases ha : lookup STATE_ALIASES (pyUpper (pyStrip s)) with _ | v2
        · rcases hf : lookup FULL_NAME_TO_ABBREV (pyUpper (pyStrip s)) with _ | v3
          · simp [hk, ha, hf]
          · simp [hk, ha, hf]
        · simp [hk, ha]
      · simp [hk]

/-- Witness for C7 at an input with no plausible match. -/
theorem c7_validate_state_never_raises_witness :
    validate_stateE "Zyzzy" = Except.ok (validate_state "Zyzzy") ∧
    (validate_state "Zyzzy").2.1 = none :=
  ⟨(c7_validate_state_never_raises "Zyzzy").1,
   (c7_validate_state_never_raises "Zyzzy").2 (by decide)⟩
